import Mathlib

/-!
# Tunneler: registry, HTTP handlers and SSH handlers

A shallow embedding of `pkg/service` (api.go, ssh.go, utils.go, service.go)
together with the Go standard-library primitives the handlers call
(`encoding/base32`, `net.SplitHostPort`, `strconv.Atoi`, `strings.CutPrefix`,
the `http.ResponseWriter` status discipline).
-/

namespace Tunneler

/-! ## encoding/base32 with the z-base-32 alphabet, no padding (utils.go:13) -/

/-- The alphabet handed to `base32.NewEncoding` in utils.go. -/
def encodeAlphabet : List Char := "ybndrfg8ejkmcpqxot1uwisza345h769".data

/-- The table lookup `enc.encode[v & 0x1F]`. -/
def encChar (v : Nat) : Char :=
  encodeAlphabet.get ⟨v &&& 0x1F,
    Nat.lt_of_lt_of_le (Nat.lt_of_le_of_lt Nat.and_le_right (by decide : 0x1F < 32))
      (by decide : 32 ≤ encodeAlphabet.length)⟩

/-- The 32-bit word `hi` that base32.Encode loads from four source bytes. -/
def word32 (b0 b1 b2 b3 : Nat) : Nat :=
  ((b0 <<< 24) ||| (b1 <<< 16) ||| (b2 <<< 8) ||| b3) % 2 ^ 32

/-- The body of `(*Encoding).Encode` for an encoding without padding: every
full five-byte block gives eight characters, and the final block of 1, 2, 3 or
4 bytes runs the fall-through switch, in which `val` grows by one source byte
per case, and gives 2, 4, 5 or 7 characters. -/
def base32Encode : List Nat → List Char
  | [] => []
  | [b0] =>
    let val := (b0 <<< 24) % 2 ^ 32
    [encChar (val >>> 27), encChar (val >>> 22)]
  | [b0, b1] =>
    let v2 := (b1 <<< 16) % 2 ^ 32
    let v1 := v2 ||| (b0 <<< 24) % 2 ^ 32
    [encChar (v1 >>> 27), encChar (v1 >>> 22), encChar (v2 >>> 17), encChar (v2 >>> 12)]
  | [b0, b1, b2] =>
    let v3 := (b2 <<< 8) % 2 ^ 32
    let v2 := v3 ||| (b1 <<< 16) % 2 ^ 32
    let v1 := v2 ||| (b0 <<< 24) % 2 ^ 32
    [encChar (v1 >>> 27), encChar (v1 >>> 22), encChar (v2 >>> 17), encChar (v2 >>> 12),
     encChar (v3 >>> 7)]
  | [b0, b1, b2, b3] =>
    let v4 := b3 % 2 ^ 32
    let v3 := v4 ||| (b2 <<< 8) % 2 ^ 32
    let v2 := v3 ||| (b1 <<< 16) % 2 ^ 32
    let v1 := v2 ||| (b0 <<< 24) % 2 ^ 32
    [encChar (v1 >>> 27), encChar (v1 >>> 22), encChar (v2 >>> 17), encChar (v2 >>> 12),
     encChar (v3 >>> 7), encChar (v4 >>> 2), encChar ((v4 <<< 3) % 2 ^ 32)]
  | b0 :: b1 :: b2 :: b3 :: b4 :: rest =>
    let hi := word32 b0 b1 b2 b3
    let lo := ((hi <<< 8) ||| b4) % 2 ^ 32
    encChar (hi >>> 27) :: encChar (hi >>> 22) :: encChar (hi >>> 17) :: encChar (hi >>> 12) ::
    encChar (hi >>> 7) :: encChar (hi >>> 2) :: encChar (lo >>> 5) :: encChar lo ::
    base32Encode rest

/-- The function `newID` of utils.go, with the sixteen random bytes of
`uuid.NewRandom()` as its argument. -/
def newID (uuid : List Nat) : String := String.mk (base32Encode uuid)

/-! ## Go errors -/

/-- The error values that reach the handlers: `*net.AddrError`,
`*strconv.NumError` (with `ErrSyntax` or `ErrRange`), and the results of
`fmt.Errorf` without and with a wrapped error. -/
inductive GoError where
  | addrError (addr why : String)
  | numSyntax (fn num : String)
  | numRange (fn num : String)
  | errorf (msg : String)
  | wrapf (msg : String) (inner : GoError)
  deriving DecidableEq, Repr

/-! ## net.SplitHostPort -/

/-- The result of `bytealg.IndexByteString`: index of the first `c`, if any. -/
def indexByte (s : List Char) (c : Char) : Option Nat :=
  if s.indexOf c < s.length then some (s.indexOf c) else none

/-- The result of `bytealg.LastIndexByteString`: index of the last `c`, if any. -/
def lastIndexByte (s : List Char) (c : Char) : Option Nat :=
  if s.reverse.indexOf c < s.length then some (s.length - 1 - s.reverse.indexOf c) else none

/-- The tail of `net.SplitHostPort` shared by both branches: the checks for a
stray bracket in `hostport[j:]` and `hostport[k:]`, then the port
`hostport[i+1:]`. -/
def splitHostPortTail (hostport : String) (host : List Char) (i j k : Nat) :
    String × String × Option GoError :=
  if '[' ∈ hostport.data.drop j then
    ("", "", some (.addrError hostport "unexpected \x27[\x27 in address"))
  else if ']' ∈ hostport.data.drop k then
    ("", "", some (.addrError hostport "unexpected \x27]\x27 in address"))
  else (String.mk host, String.mk (hostport.data.drop (i + 1)), none)

/-- The function `net.SplitHostPort`, returning Go's triple (host, port, err);
host and port are empty whenever err is set. -/
def SplitHostPort (hostport : String) : String × String × Option GoError :=
  match lastIndexByte hostport.data ':' with
  | none => ("", "", some (.addrError hostport "missing port in address"))
  | some i =>
    if hostport.data.head? = some '[' then
      match indexByte hostport.data ']' with
      | none => ("", "", some (.addrError hostport "missing \x27]\x27 in address"))
      | some e =>
        if e + 1 = hostport.data.length then
          ("", "", some (.addrError hostport "missing port in address"))
        else if e + 1 = i then
          splitHostPortTail hostport ((hostport.data.take e).drop 1) i 1 (e + 1)
        else if hostport.data.get? (e + 1) = some ':' then
          ("", "", some (.addrError hostport "too many colons in address"))
        else ("", "", some (.addrError hostport "missing port in address"))
    else
      if ':' ∈ hostport.data.take i then
        ("", "", some (.addrError hostport "too many colons in address"))
      else splitHostPortTail hostport (hostport.data.take i) i 0 0

/-! ## strconv.Atoi (64-bit int) -/

/-- The digit loop of `strconv.ParseUint(s, 10, 64)`: a byte that is not a
decimal digit is a syntax error, and a value that leaves the uint64 range is a
range error, reported at the byte where it happens. -/
def parseUintLoop (s0 : String) : List Char → Nat → Nat × Option GoError
  | [], n => (n, none)
  | c :: cs, n =>
    if c.isDigit then
      if n ≥ (2 ^ 64 - 1) / 10 + 1 then (2 ^ 64 - 1, some (.numRange "ParseUint" s0))
      else
        let n10 := n * 10
        let n1 := (n10 + (c.toNat - 48)) % 2 ^ 64
        if n1 < n10 ∨ n1 > 2 ^ 64 - 1 then (2 ^ 64 - 1, some (.numRange "ParseUint" s0))
        else parseUintLoop s0 cs n1
    else (0, some (.numSyntax "ParseUint" s0))

/-- The function `strconv.ParseUint` at base 10 and bit size 64. -/
def ParseUint (s : String) : Nat × Option GoError :=
  if s = "" then (0, some (.numSyntax "ParseUint" s))
  else parseUintLoop s s.data 0

/-- The function `strconv.ParseInt` at base 10 and bit size 0 (the size of int, 64). -/
def ParseInt (s : String) : Int × Option GoError :=
  if s = "" then (0, some (.numSyntax "ParseInt" s))
  else
    let neg := s.data.head? = some '-'
    let rest := if s.data.head? = some '+' ∨ s.data.head? = some '-' then s.data.drop 1 else s.data
    match ParseUint (String.mk rest) with
    | (_, some (.numSyntax _ _)) => (0, some (.numSyntax "ParseInt" s))
    | (un, _) =>
      if ¬ neg ∧ un ≥ 2 ^ 63 then (2 ^ 63 - 1, some (.numRange "ParseInt" s))
      else if neg ∧ un > 2 ^ 63 then (-(2 ^ 63), some (.numRange "ParseInt" s))
      else if neg then (-(un : Int), none) else ((un : Int), none)

/-- The fast-path digit loop of `strconv.Atoi`. -/
def atoiLoop (s0 : String) : List Char → Int → Int × Option GoError
  | [], n => (n, none)
  | c :: cs, n =>
    if c.isDigit then atoiLoop s0 cs (n * 10 + ((c.toNat - 48 : Nat) : Int))
    else (0, some (.numSyntax "Atoi" s0))

/-- The function `strconv.Atoi` for a 64-bit int: strings of 1 to 18 bytes take
the fast path, all others go through ParseInt, whose error is renamed to Atoi.
The loops run over characters; a character outside ASCII is made of bytes
above 0x7F, none of which is a digit or a sign. -/
def Atoi (s : String) : Int × Option GoError :=
  if 0 < s.utf8ByteSize ∧ s.utf8ByteSize < 19 then
    let signed := s.data.head? = some '-' ∨ s.data.head? = some '+'
    let digits := if signed then s.data.drop 1 else s.data
    if signed ∧ digits.length < 1 then (0, some (.numSyntax "Atoi" s))
    else
      match atoiLoop s digits 0 with
      | (_, some err) => (0, some err)
      | (n, none) => if s.data.head? = some '-' then (-n, none) else (n, none)
  else
    match ParseInt s with
    | (i64, some (.numSyntax _ num)) => (i64, some (.numSyntax "Atoi" num))
    | (i64, some (.numRange _ num)) => (i64, some (.numRange "Atoi" num))
    | (i64, err) => (i64, err)

/-! ## Decimal notation

What the specification calls a decimal integer, written down without reference
to the conversion routines above. -/

/-- The number a string of decimal digits denotes when it continues a numeral
whose value so far is n. -/
def decimalValueFrom (n : Nat) (digits : List Char) : Nat :=
  digits.foldl (fun acc c => acc * 10 + (c.toNat - 48)) n

/-- The number a non-empty string of decimal digits denotes. -/
def digitsValue (digits : List Char) : Option Nat :=
  if digits ≠ [] ∧ digits.all Char.isDigit = true then some (decimalValueFrom 0 digits) else none

/-- The integer a string denotes in decimal notation: an optional sign followed
by one or more digits. -/
def readDecimal (s : String) : Option Int :=
  match s.data with
  | [] => none
  | c :: rest =>
    if c = '+' then Option.map (fun v : Nat => (v : Int)) (digitsValue rest)
    else if c = '-' then Option.map (fun v : Nat => -(v : Int)) (digitsValue rest)
    else Option.map (fun v : Nat => (v : Int)) (digitsValue (c :: rest))

/-! ## strings.CutPrefix -/

/-- The function `strings.CutPrefix`: the string without the leading `pre` and
true, or the string itself and false. -/
def CutPrefix (s pre : String) : String × Bool :=
  if pre.data.isPrefixOf s.data then (String.mk (s.data.drop pre.data.length), true)
  else (s, false)

/-! ## service.go: constants and records -/

def minValidPortNum : Int := 1

def maxValidPortNum : Int := 65535

def tunnelIDCookieName : String := "TUNNELID"

def bindPort : Nat := 8080

/-- The record `tunnel` of service.go. The interface value `conn` is none
while it is nil; a connection is identified by a number. The zero value of
`scheme` is the empty string. -/
structure tunnel where
  localAddr : String
  conn : Option Nat
  scheme : String
  deriving DecidableEq, Repr

/-- The record `Config` of service.go. -/
structure Config where
  SSHAddr : String
  HTTPAddr : String
  HTTPSAddr : String
  Hostname : String
  TLSCertPath : String
  TLSKeyPath : String
  HostKeyPath : String
  deriving DecidableEq, Repr

/-- The part of `Service` the handlers read and write: the configuration, the
addresses `httpLn.Addr().String()` and `httpsLn.Addr().String()` of the two
bound listeners, and the map `tunnels`. -/
structure Service where
  cfg : Config
  httpLnAddr : String
  httpsLnAddr : String
  tunnels : String → Option tunnel

/-- The map assignment `s.tunnels[id] = t`; writing through the pointer stored
at `id` is the same assignment. -/
def Service.setTunnel (s : Service) (id : String) (t : tunnel) : Service :=
  { s with tunnels := fun k => if k = id then some t else s.tunnels k }

/-- The map deletion `delete(s.tunnels, id)`. -/
def Service.deleteTunnel (s : Service) (id : String) : Service :=
  { s with tunnels := fun k => if k = id then none else s.tunnels k }

/-! ## utils.go and the request validation of api.go -/

/-- The function `parseAddress` of utils.go, returning Go's triple. -/
def parseAddress (addr : String) : String × Int × Option GoError :=
  if ':' ∈ addr.data then
    match SplitHostPort addr with
    | (_, _, some err) => ("", 0, some err)
    | (host, port, none) =>
      match Atoi port with
      | (_, some err) => ("", 0, some err)
      | (p, none) =>
        if p < minValidPortNum ∨ p > maxValidPortNum then
          ("", 0, some (.errorf "port number not in valid range"))
        else (host, p, none)
  else (addr, 0, none)

/-- The request body type `tunnelCreateReq` of api.go. -/
structure tunnelCreateReq where
  LocalAddr : String
  deriving DecidableEq, Repr

/-- The method `tunnelCreateReq.IsValid`: none is the nil error. -/
def tunnelCreateReq.IsValid (r : tunnelCreateReq) : Option GoError :=
  if r.LocalAddr = "" then some (.errorf "invalid empty value")
  else
    match parseAddress r.LocalAddr with
    | (_, _, some err) => some (.wrapf "failed to parse LocalAddr: " err)
    | (_, _, none) => none

/-- The function `generateTunnelCommand` of api.go. -/
def generateTunnelCommand (tunnelID laddr hostname sshAddr : String) : String :=
  let localPort := (SplitHostPort laddr).2.1
  let laddr := if localPort = "" then laddr ++ ":443" else laddr
  let sshPort := (SplitHostPort sshAddr).2.1
  "ssh -N -T -R" ++ tunnelID ++ ":" ++ toString bindPort ++ ":" ++ laddr ++ " " ++ hostname
    ++ " -p " ++ sshPort

/-- The function `generateAccessURLs` of api.go. -/
def generateAccessURLs (tunnelID httpAddr httpsAddr : String) : List String :=
  ["http://" ++ httpAddr ++ "/tunnels/" ++ tunnelID ++ "/",
   "https://" ++ httpsAddr ++ "/tunnels/" ++ tunnelID ++ "/"]

/-- The response body type `tunnelCreateRes` of api.go. -/
structure tunnelCreateRes where
  TunnelCommand : String
  URLs : List String
  deriving DecidableEq, Repr

/-! ## net/http: requests and the response writer -/

/-- The fields of `url.URL` that an origin-form request target fills in. -/
structure URL where
  Path : String
  RawQuery : String
  deriving DecidableEq, Repr

/-- The view of `*http.Request` that the handlers take: besides the plain
fields, `body` is the outcome of decoding the JSON body into a
`tunnelCreateReq` (none when `Decode` fails), `pathValue` is
`r.PathValue("tunnelID")`, `cookie` is the value of `r.Cookie("TUNNELID")`
(none for `ErrNoCookie`), `localAddr` is the string of the `net.Addr` stored
under `http.LocalAddrContextKey` (none when the type assertion fails),
`TLS` tells whether `r.TLS` is set, that is, whether the connection was
accepted by the server started with `ServeTLS`, and `upgrade` is
`r.Header.Get("upgrade")`. -/
structure Request where
  Method : String
  Host : String
  URL : URL
  body : Option tunnelCreateReq
  pathValue : String
  cookie : Option String
  localAddr : Option String
  TLS : Bool
  upgrade : String
  deriving DecidableEq, Repr

/-- The record `http.Cookie` with the fields the service sets. -/
structure Cookie where
  Name : String
  Value : String
  MaxAge : Nat
  Path : String
  SameSiteStrict : Bool
  HttpOnly : Bool
  Domain : String
  Secure : Bool
  deriving DecidableEq, Repr

/-- The response of the local service as `client.Do` hands it back. -/
structure UpstreamResponse where
  StatusCode : Nat
  Header : List (String × String)
  Body : String
  deriving DecidableEq, Repr

/-- The pieces written to the response body. -/
inductive Chunk where
  | line (msg : String)
  | errLine (msg : String) (err : GoError)
  | json (res : tunnelCreateRes)
  | redirectNote (target : URL) (code : Nat)
  | copied (body : String)
  deriving DecidableEq, Repr

/-- The state of an `http.ResponseWriter`: `status` is the status line once it
has been sent, `cookies` are the cookies handed to `http.SetCookie`,
`location` is the URL whose string was handed to `http.Redirect` (which makes
a relative target absolute and cleans its path before it sets the Location
entry), `header` holds the entries copied from upstream. -/
structure ResponseWriter where
  status : Option Nat
  cookies : List Cookie
  location : Option URL
  header : List (String × String)
  body : List Chunk
  deriving DecidableEq, Repr

/-- A fresh response writer, as the server passes it to a handler. -/
def ResponseWriter.new : ResponseWriter :=
  { status := none, cookies := [], location := none, header := [], body := [] }

/-- The method `WriteHeader`: only the first call sends a status line. -/
def ResponseWriter.WriteHeader (w : ResponseWriter) (code : Nat) : ResponseWriter :=
  match w.status with
  | some _ => w
  | none => { w with status := some code }

/-- The method `Write`: sends status 200 first when no status was sent yet. -/
def ResponseWriter.Write (w : ResponseWriter) (c : Chunk) : ResponseWriter :=
  { w.WriteHeader 200 with body := (w.WriteHeader 200).body ++ [c] }

/-- The function `http.Error`. -/
def httpError (w : ResponseWriter) (c : Chunk) (code : Nat) : ResponseWriter :=
  (w.WriteHeader code).Write c

/-- The function `http.SetCookie`. -/
def SetCookie (w : ResponseWriter) (c : Cookie) : ResponseWriter :=
  { w with cookies := w.cookies ++ [c] }

/-- The function `http.Redirect`, called with the string of `target`: records
the target, sends the status and, for GET, writes the short note. -/
def Redirect (w : ResponseWriter) (r : Request) (target : URL) (code : Nat) : ResponseWriter :=
  let w1 := ({ w with location := some target } : ResponseWriter).WriteHeader code
  if r.Method = "GET" then w1.Write (.redirectNote target code) else w1

/-- How a handler invocation ends: it returns, it returns after taking over the
client connection, or it panics on a nil dereference (the server recovers the
panic and drops the connection without an answer from the handler). -/
inductive HandlerResult where
  | returned (w : ResponseWriter)
  | hijacked (w : ResponseWriter)
  | panicked (w : ResponseWriter)
  deriving DecidableEq, Repr

/-- The status the handler answered with, if it answered. -/
def HandlerResult.answer : HandlerResult → Option Nat
  | .returned w => w.status
  | .hijacked _ => none
  | .panicked _ => none

/-! ## api.go: the three routes of createAPIMux -/

/-- The route `/tunnels`. The argument `uuid` is the value `uuid.NewRandom()`
draws inside `newID`. -/
def handleCreate (s : Service) (uuid : List Nat) (r : Request) (w : ResponseWriter) :
    Service × ResponseWriter :=
  if r.Method ≠ "PUT" then (s, httpError w (.line "method not allowed") 405)
  else
    match r.body with
    | none => (s, httpError w (.line "bad request") 400)
    | some data =>
      let w1 :=
        match data.IsValid with
        | some err => httpError w (.errLine "invalid data: " err) 400
        | none => w
      let tunnelID := newID uuid
      let s1 := s.setTunnel tunnelID { localAddr := data.LocalAddr, conn := none, scheme := "" }
      let res : tunnelCreateRes :=
        { TunnelCommand := generateTunnelCommand tunnelID data.LocalAddr s1.cfg.Hostname s1.cfg.SSHAddr
          URLs := generateAccessURLs tunnelID s1.httpLnAddr s1.httpsLnAddr }
      (s1, w1.Write (.json res))

/-- The route `/tunnels/{tunnelID}/`. -/
def handleLanding (s : Service) (r : Request) (w : ResponseWriter) : ResponseWriter :=
  let tunnelID := r.pathValue
  match s.tunnels tunnelID with
  | none => httpError w (.line "tunnel not found") 400
  | some tunnel =>
    let req : Request :=
      { r with Host := tunnel.localAddr
               URL := { r.URL with Path := (CutPrefix r.URL.Path ("/tunnels/" ++ tunnelID)).1 } }
    match r.localAddr with
    | none => httpError w (.line "internal error") 500
    | some srvAddr =>
      let srvHost := (SplitHostPort srvAddr).1
      let w1 := SetCookie w
        { Name := tunnelIDCookieName
          Value := tunnelID
          MaxAge := 3600
          Path := "/"
          SameSiteStrict := true
          HttpOnly := true
          Domain := srvHost
          Secure := srvAddr = s.cfg.HTTPSAddr }
      Redirect w1 r req.URL 302

/-- The request the proxy route sends to the local service. -/
structure OutboundRequest where
  Method : String
  scheme : String
  host : String
  URL : URL
  deriving DecidableEq, Repr

/-- What the outside world decides during one run of the proxy route: whether
`OpenChannel` on the given connection fails, whether the writer is an
`http.Hijacker`, the error of `Hijack`, whether `http.NewRequest` fails, and the
outcome of `client.Do`. After a successful `Hijack` the handler only moves
bytes between the two connections, whatever `req.Write(ch)` returns. -/
structure ProxyEnv where
  openChannelFails : Nat → Bool
  hijacker : Bool
  hijackErr : Option String
  newRequestFails : OutboundRequest → Bool
  roundTrip : OutboundRequest → Option UpstreamResponse

/-- The catch-all route `/`. -/
def handleProxy (s : Service) (env : ProxyEnv) (r : Request) (w : ResponseWriter) :
    HandlerResult :=
  match r.cookie with
  | none => .returned (httpError w (.line "not found") 404)
  | some value =>
    if value = "" then .returned (httpError w (.line "not found") 404)
    else
      let tunnelID := value
      match s.tunnels tunnelID with
      | none => .returned (httpError w (.line "tunnel not found") 400)
      | some tunnel =>
        match tunnel.conn with
        | none => .panicked w
        | some conn =>
          if env.openChannelFails conn then
            .returned (httpError w (.line "failed to open SSH tunnel") 500)
          else if r.upgrade ≠ "" then
            if ¬ env.hijacker then
              .returned (httpError w (.line "webserver doesn\x27t support hijacking") 500)
            else
              match env.hijackErr with
              | some msg => .returned (httpError w (.line msg) 500)
              | none => .hijacked w
          else
            let creq : OutboundRequest :=
              { Method := r.Method
                scheme := tunnel.scheme
                host := tunnel.localAddr
                URL := { r.URL with Path := (CutPrefix r.URL.Path ("/tunnels/" ++ tunnelID)).1 } }
            if env.newRequestFails creq then
              .returned (httpError w (.line "failed to create request") 500)
            else
              match env.roundTrip creq with
              | none => .returned (httpError w (.line "request failed") 500)
              | some resp =>
                let w1 : ResponseWriter :=
                  { w with cookies := [], location := none, header := resp.Header }
                .returned ((w1.WriteHeader resp.StatusCode).Write (.copied resp.Body))

/-! ## ssh.go: the two global-request handlers -/

/-- The payload `forwardReqPayload` of ssh.go. -/
structure forwardReqPayload where
  BindAddr : String
  BindPort : Nat
  deriving DecidableEq, Repr

/-- The outcome of the probe `client.Head("https://" + localAddr)`. -/
inductive ProbeResult where
  | schemeMismatch
  | otherError
  | response
  deriving DecidableEq, Repr

/-- What the outside world decides during one run of forwardHandler. -/
structure ForwardEnv where
  openChannelFails : Bool
  probe : ProbeResult
  deriving DecidableEq, Repr

/-- The method `Service.forwardHandler`: `payload` is the outcome of
`gossh.Unmarshal` (none when it fails), `conn` the connection in the request
context. Returns the new service state and the boolean reply. -/
def forwardHandler (s : Service) (conn : Nat) (payload : Option forwardReqPayload)
    (env : ForwardEnv) : Service × Bool :=
  match payload with
  | none => (s, false)
  | some reqPayload =>
    match s.tunnels reqPayload.BindAddr with
    | none => (s, false)
    | some tunnel =>
      let bound : Tunneler.tunnel := { tunnel with conn := some conn }
      let s1 := s.setTunnel reqPayload.BindAddr bound
      if env.openChannelFails then (s1, false)
      else
        match env.probe with
        | .schemeMismatch =>
          (s1.setTunnel reqPayload.BindAddr { bound with scheme := "http" }, true)
        | .otherError => (s1, false)
        | .response =>
          (s1.setTunnel reqPayload.BindAddr { bound with scheme := "https" }, true)

/-- The method `Service.cancelForwardHandler`. -/
def cancelForwardHandler (s : Service) (payload : Option forwardReqPayload) : Service × Bool :=
  match payload with
  | none => (s, false)
  | some reqPayload => (s.deleteTunnel reqPayload.BindAddr, true)

/-! ## The registry state machine -/

/-- One handled request: the five handlers that touch the registry. -/
inductive Step where
  | create (uuid : List Nat) (r : Request)
  | landing (r : Request)
  | proxy (env : ProxyEnv) (r : Request)
  | forward (conn : Nat) (payload : Option forwardReqPayload) (env : ForwardEnv)
  | cancel (payload : Option forwardReqPayload)

/-- What a handled request gives back to its peer. -/
inductive Output where
  | http (w : ResponseWriter)
  | handled (res : HandlerResult)
  | reply (ok : Bool)

/-- One handled request run on the service: the new state and the output. The
HTTP handlers start from a fresh response writer. -/
def exec (s : Service) : Step → Service × Output
  | .create uuid r => ((handleCreate s uuid r ResponseWriter.new).1,
      .http (handleCreate s uuid r ResponseWriter.new).2)
  | .landing r => (s, .http (handleLanding s r ResponseWriter.new))
  | .proxy env r => (s, .handled (handleProxy s env r ResponseWriter.new))
  | .forward conn payload env => ((forwardHandler s conn payload env).1,
      .reply (forwardHandler s conn payload env).2)
  | .cancel payload => ((cancelForwardHandler s payload).1,
      .reply (cancelForwardHandler s payload).2)

/-- The service state after one handled request. -/
def step (s : Service) (st : Step) : Service := (exec s st).1

/-- The service state after a sequence of handled requests. -/
def run (s : Service) (steps : List Step) : Service := steps.foldl step s

/-- The step is a cancel-tcpip-forward whose payload parses with BindAddr = id. -/
def Step.cancels (id : String) : Step → Prop
  | .cancel (some p) => p.BindAddr = id
  | _ => False

/-! ## Concrete states and requests used below -/

/-- A configuration with the default flags of main.go. -/
def cfgDefault : Config :=
  { SSHAddr := ":2222", HTTPAddr := "127.0.0.1:8080", HTTPSAddr := "127.0.0.1:8443",
    Hostname := "gw.example", TLSCertPath := "cert.pem", TLSKeyPath := "key.pem",
    HostKeyPath := "host.key" }

/-- The service right after `New` and `Start` with the default flags. -/
def svcEmpty : Service :=
  { cfg := cfgDefault, httpLnAddr := "127.0.0.1:8080", httpsLnAddr := "127.0.0.1:8443",
    tunnels := fun _ => none }

/-- A service whose registry holds one tunnel, created and not yet bound. -/
def svcUnbound : Service :=
  svcEmpty.setTunnel "abc" { localAddr := "127.0.0.1:9443", conn := none, scheme := "" }

/-- A service started with `--https-addr :8443`, holding one bound tunnel. -/
def svcWildcard : Service :=
  { cfg := { cfgDefault with HTTPSAddr := ":8443" }
    httpLnAddr := "127.0.0.1:8080"
    httpsLnAddr := "0.0.0.0:8443"
    tunnels := fun k =>
      if k = "abc" then some { localAddr := "127.0.0.1:9443", conn := some 1, scheme := "https" }
      else none }

/-- A GET request without cookie that arrived over the HTTPS listener on a
connection whose local address is 127.0.0.1:8443. -/
def reqGet (path query : String) : Request :=
  { Method := "GET", Host := "gw.example", URL := { Path := path, RawQuery := query },
    body := none, pathValue := "", cookie := none, localAddr := some "127.0.0.1:8443",
    TLS := true, upgrade := "" }

/-- The request `PUT /tunnels` whose body decodes to the given LocalAddr. -/
def reqPut (localAddr : String) : Request :=
  { reqGet "/tunnels" "" with Method := "PUT", body := some { LocalAddr := localAddr } }

/-- Sixteen bytes standing for one draw of `uuid.NewRandom()`. -/
def uuidSample : List Nat := [0, 1, 2, 3, 4, 5, 6, 7, 8, 9, 10, 11, 12, 13, 14, 255]

/-- An environment in which every channel opens and upstream answers 200. -/
def proxyEnvOk : ProxyEnv :=
  { openChannelFails := fun _ => false, hijacker := true, hijackErr := none,
    newRequestFails := fun _ => false,
    roundTrip := fun _ => some { StatusCode := 200, Header := [], Body := "ok" } }

/-! ## Identifier codec -/

theorem encChar_mem (v : Nat) : encChar v ∈ encodeAlphabet := by
  unfold encChar
  exact List.get_mem _ _ _

theorem base32Encode_mem_alphabet (src : List Nat) :
    ∀ c ∈ base32Encode src, c ∈ encodeAlphabet := by
  induction src using base32Encode.induct <;>
    simp_all [base32Encode, encChar_mem]

theorem base32Encode_length_16 (src : List Nat) (h : src.length = 16) :
    (base32Encode src).length = 26 := by
  match src, h with
  | [_, _, _, _, _, _, _, _, _, _, _, _, _, _, _, _], _ => simp [base32Encode]

/-- C7: the unpadded base32 encoding that newID applies to a 16-byte value is a
string of exactly 26 characters, each of them a character of the alphabet
"ybndrfg8ejkmcpqxot1uwisza345h769". -/
theorem newID_format (uuid : List Nat) (h : uuid.length = 16) :
    (newID uuid).length = 26 ∧
      ∀ c ∈ (newID uuid).data, c ∈ "ybndrfg8ejkmcpqxot1uwisza345h769".data := by
  refine ⟨?_, ?_⟩
  · show (base32Encode uuid).length = 26
    exact base32Encode_length_16 uuid h
  · intro c hc
    exact base32Encode_mem_alphabet uuid c hc

theorem newID_format_witness :
    [0, 1, 2, 3, 4, 5, 6, 7, 8, 9, 10, 11, 12, 13, 14, 255].length = 16 ∧
      ((newID [0, 1, 2, 3, 4, 5, 6, 7, 8, 9, 10, 11, 12, 13, 14, 255]).length = 26 ∧
        ∀ c ∈ (newID [0, 1, 2, 3, 4, 5, 6, 7, 8, 9, 10, 11, 12, 13, 14, 255]).data,
          c ∈ "ybndrfg8ejkmcpqxot1uwisza345h769".data) :=
  ⟨by decide, newID_format [0, 1, 2, 3, 4, 5, 6, 7, 8, 9, 10, 11, 12, 13, 14, 255] (by decide)⟩

/-! ## PUT /tunnels with an invalid LocalAddr -/

theorem handleCreate_invalid_general (s : Service) (uuid : List Nat) (r : Request)
    (data : tunnelCreateReq) (err : GoError) (hm : r.Method = "PUT") (hb : r.body = some data)
    (hv : data.IsValid = some err) :
    (handleCreate s uuid r ResponseWriter.new).2.status = some 400 ∧
      (handleCreate s uuid r ResponseWriter.new).1.tunnels (newID uuid)
        = some { localAddr := data.LocalAddr, conn := none, scheme := "" } := by
  simp [handleCreate, hm, hb, hv, httpError, ResponseWriter.Write, ResponseWriter.WriteHeader,
    ResponseWriter.new, Service.setTunnel]

/-- C1: at the request `PUT /tunnels` with body LocalAddr = "host:70000" the
handler answers 400 and nevertheless allocates an ID and inserts the record:
the validation branch of handleCreate writes the error and does not return. -/
theorem handleCreate_invalid_inserts :
    (tunnelCreateReq.IsValid { LocalAddr := "host:70000" }).isSome = true ∧
      (handleCreate svcEmpty uuidSample (reqPut "host:70000") ResponseWriter.new).2.status
        = some 400 ∧
      svcEmpty.tunnels (newID uuidSample) = none ∧
      (handleCreate svcEmpty uuidSample (reqPut "host:70000") ResponseWriter.new).1.tunnels
          (newID uuidSample)
        = some { localAddr := "host:70000", conn := none, scheme := "" } := by
  decide

/-! ## The proxy route before the SSH side has bound -/

theorem handleProxy_unbound_general (s : Service) (env : ProxyEnv) (r : Request)
    (w : ResponseWriter) (id : String) (t : tunnel) (hc : r.cookie = some id) (hid : id ≠ "")
    (ht : s.tunnels id = some t) (hn : t.conn = none) :
    handleProxy s env r w = .panicked w := by
  simp [handleProxy, hc, hid, ht, hn]

/-- C2: at a request to the catch-all route whose TUNNELID cookie names a tunnel
that is registered and has no connection yet, handleProxy calls a method on the
nil connection and panics; no status is answered, in particular not 400. -/
theorem handleProxy_unbound_panics :
    (svcUnbound.tunnels "abc").map (fun t => t.conn) = some none ∧
      handleProxy svcUnbound proxyEnvOk { reqGet "/x" "" with cookie := some "abc" }
          ResponseWriter.new
        = .panicked ResponseWriter.new ∧
      (handleProxy svcUnbound proxyEnvOk { reqGet "/x" "" with cookie := some "abc" }
          ResponseWriter.new).answer ≠ some 400 := by
  decide

/-! ## forwardHandler -/

/-- C3, counterexample: a tcpip-forward for a registered, never-bound tunnel
whose channel fails to open is answered false, and the record's connection has
changed from unset to the requesting connection. -/
theorem forwardHandler_false_reply_binds :
    (svcUnbound.tunnels "abc").map (fun t => t.conn) = some none ∧
      (forwardHandler svcUnbound 7 (some { BindAddr := "abc", BindPort := 8080 })
          { openChannelFails := true, probe := .response }).2 = false ∧
      ((forwardHandler svcUnbound 7 (some { BindAddr := "abc", BindPort := 8080 })
          { openChannelFails := true, probe := .response }).1.tunnels "abc").map
        (fun t => t.conn) = some (some 7) := by
  decide

/-- C3, amended: when the payload does not parse or BindAddr is not registered,
forwardHandler replies false and leaves the service as it was. Otherwise the
record's connection is the requesting connection afterwards whatever the reply,
its local address is kept, no other entry changes, the reply is true exactly
when the channel opens and the probe ends in a scheme mismatch or a response,
and the scheme is then "http" or "https" and otherwise what it was. -/
theorem forwardHandler_spec (s : Service) (conn : Nat) (env : ForwardEnv) :
    forwardHandler s conn none env = (s, false) ∧
    (∀ p, s.tunnels p.BindAddr = none → forwardHandler s conn (some p) env = (s, false)) ∧
    (∀ p t, s.tunnels p.BindAddr = some t →
      ((forwardHandler s conn (some p) env).2 = true ↔
        (env.openChannelFails = false ∧ env.probe ≠ .otherError)) ∧
      (forwardHandler s conn (some p) env).1.tunnels p.BindAddr
        = some { localAddr := t.localAddr, conn := some conn,
                 scheme :=
                   if env.openChannelFails = true then t.scheme
                   else match env.probe with
                     | .schemeMismatch => "http"
                     | .otherError => t.scheme
                     | .response => "https" } ∧
      (∀ k, k ≠ p.BindAddr →
        (forwardHandler s conn (some p) env).1.tunnels k = s.tunnels k)) := by
  refine ⟨rfl, ?_, ?_⟩
  · intro p hp
    simp [forwardHandler, hp]
  · intro p t hp
    obtain ⟨ocf, probe⟩ := env
    cases ocf <;> cases probe <;>
      simp [forwardHandler, hp, Service.setTunnel] <;>
      intro k hk <;> simp [hk]

theorem forwardHandler_spec_witness :
    ((forwardHandler svcUnbound 7 (some { BindAddr := "abc", BindPort := 8080 })
        { openChannelFails := false, probe := .schemeMismatch }).2 = true ↔
      ((false : Bool) = false ∧ ProbeResult.schemeMismatch ≠ .otherError)) ∧
    (forwardHandler svcUnbound 7 (some { BindAddr := "abc", BindPort := 8080 })
        { openChannelFails := false, probe := .schemeMismatch }).1.tunnels "abc"
      = some { localAddr := "127.0.0.1:9443", conn := some 7, scheme := "http" } :=
  ⟨((forwardHandler_spec svcUnbound 7
      { openChannelFails := false, probe := .schemeMismatch }).2.2
      { BindAddr := "abc", BindPort := 8080 }
      { localAddr := "127.0.0.1:9443", conn := none, scheme := "" } (by decide)).1,
   by decide⟩

/-! ## The Secure attribute of the TUNNELID cookie -/

theorem handleLanding_cookie (s : Service) (r : Request) (t : tunnel) (a : String)
    (ht : s.tunnels r.pathValue = some t) (ha : r.localAddr = some a) :
    (handleLanding s r ResponseWriter.new).cookies
      = [{ Name := "TUNNELID", Value := r.pathValue, MaxAge := 3600, Path := "/",
           SameSiteStrict := true, HttpOnly := true, Domain := (SplitHostPort a).1,
           Secure := decide (a = s.cfg.HTTPSAddr) }] := by
  by_cases hm : r.Method = "GET" <;>
    simp [handleLanding, ht, ha, Redirect, SetCookie, ResponseWriter.WriteHeader,
      ResponseWriter.Write, ResponseWriter.new, hm, tunnelIDCookieName]

/-- C4: with `--https-addr :8443` a request that arrives over the HTTPS listener
(TLS set; local address of the connection "127.0.0.1:8443", or the listener
address "0.0.0.0:8443" itself) for an existing tunnel is redirected with a
TUNNELID cookie whose Secure attribute is false. -/
theorem handleLanding_secure_textual :
    svcWildcard.cfg.HTTPSAddr = ":8443" ∧
      ({ reqGet "/tunnels/abc/x" "" with pathValue := "abc" } : Request).TLS = true ∧
      (handleLanding svcWildcard { reqGet "/tunnels/abc/x" "" with pathValue := "abc" }
          ResponseWriter.new).status = some 302 ∧
      (handleLanding svcWildcard { reqGet "/tunnels/abc/x" "" with pathValue := "abc" }
          ResponseWriter.new).cookies
        = [{ Name := "TUNNELID", Value := "abc", MaxAge := 3600, Path := "/",
             SameSiteStrict := true, HttpOnly := true, Domain := "127.0.0.1",
             Secure := false }] ∧
      (handleLanding svcWildcard
          { reqGet "/tunnels/abc/x" "" with pathValue := "abc", localAddr := some "0.0.0.0:8443" }
          ResponseWriter.new).cookies.map (fun c => c.Secure) = [false] := by
  decide

/-! ## cancelForwardHandler -/

/-- C9, counterexample: after a cancel-tcpip-forward with the empty BindAddr
(reply true), a proxy request whose TUNNELID cookie has that empty value is
answered 404 and not 400. -/
theorem cancel_then_proxy_empty_id :
    (cancelForwardHandler svcUnbound (some { BindAddr := "", BindPort := 8080 })).2 = true ∧
      handleProxy (cancelForwardHandler svcUnbound (some { BindAddr := "", BindPort := 8080 })).1
          proxyEnvOk { reqGet "/x" "" with cookie := some "" } ResponseWriter.new
        = .returned (httpError ResponseWriter.new (.line "not found") 404) ∧
      (handleProxy (cancelForwardHandler svcUnbound (some { BindAddr := "", BindPort := 8080 })).1
          proxyEnvOk { reqGet "/x" "" with cookie := some "" } ResponseWriter.new).answer
        ≠ some 400 := by
  decide

/-- C9, amended: a cancel-tcpip-forward whose payload parses with BindAddr = id
is answered true, afterwards id is absent and every other entry is unchanged,
and a following proxy request with cookie TUNNELID = id is answered
400 "tunnel not found" when id is non-empty and 404 "not found" when id is the
empty string; a payload that does not parse is answered false and the service
is unchanged. -/
theorem cancelForwardHandler_spec (s : Service) (p : forwardReqPayload) :
    (cancelForwardHandler s (some p)).2 = true ∧
    (cancelForwardHandler s (some p)).1.tunnels p.BindAddr = none ∧
    (∀ k, k ≠ p.BindAddr → (cancelForwardHandler s (some p)).1.tunnels k = s.tunnels k) ∧
    (∀ (env : ProxyEnv) (r : Request), r.cookie = some p.BindAddr →
      handleProxy (cancelForwardHandler s (some p)).1 env r ResponseWriter.new
        = if p.BindAddr = "" then
            .returned (httpError ResponseWriter.new (.line "not found") 404)
          else .returned (httpError ResponseWriter.new (.line "tunnel not found") 400)) ∧
    (∀ (env : ProxyEnv) (r : Request), r.cookie = some p.BindAddr →
      (handleProxy (cancelForwardHandler s (some p)).1 env r ResponseWriter.new).answer
        = if p.BindAddr = "" then some 404 else some 400) ∧
    cancelForwardHandler s none = (s, false) := by
  refine ⟨rfl, ?_, ?_, ?_, ?_, rfl⟩
  · simp [cancelForwardHandler, Service.deleteTunnel]
  · intro k hk
    simp [cancelForwardHandler, Service.deleteTunnel, hk]
  · intro env r hr
    by_cases h : p.BindAddr = "" <;>
      simp [handleProxy, hr, h, cancelForwardHandler, Service.deleteTunnel]
  · intro env r hr
    by_cases h : p.BindAddr = "" <;>
      simp [handleProxy, hr, h, cancelForwardHandler, Service.deleteTunnel,
        HandlerResult.answer, httpError, ResponseWriter.Write, ResponseWriter.WriteHeader,
        ResponseWriter.new]

theorem cancelForwardHandler_spec_witness :
    (handleProxy (cancelForwardHandler svcWildcard (some { BindAddr := "abc", BindPort := 8080 })).1
        proxyEnvOk { reqGet "/x" "" with cookie := some "abc" } ResponseWriter.new).answer
      = some 400 :=
  (cancelForwardHandler_spec svcWildcard { BindAddr := "abc", BindPort := 8080 }).2.2.2.2.1
    proxyEnvOk { reqGet "/x" "" with cookie := some "abc" } rfl

/-! ## The landing route -/

theorem CutPrefix_append (pre rest : String) : CutPrefix (pre ++ rest) pre = (rest, true) := by
  have h : pre.data.isPrefixOf (pre.data ++ rest.data) = true := by
    rw [List.isPrefixOf_iff_prefix]
    exact List.prefix_append _ _
  simp [CutPrefix, String.data_append, h]

/-- C10: for a registered id and a request whose path is "/tunnels/<id>"
followed by rest, handleLanding answers 302 and redirects to the request URL
with the path replaced by rest and the query unchanged, whatever rest holds
(also a further "/tunnels/<id>"); for an id that is not registered it answers
400 "tunnel not found" and sets no cookie. -/
theorem handleLanding_redirect (s : Service) (r : Request) (rest : String) :
    (∀ t a, s.tunnels r.pathValue = some t → r.localAddr = some a →
      r.URL.Path = "/tunnels/" ++ r.pathValue ++ rest →
      (handleLanding s r ResponseWriter.new).status = some 302 ∧
      (handleLanding s r ResponseWriter.new).location
        = some { Path := rest, RawQuery := r.URL.RawQuery }) ∧
    (s.tunnels r.pathValue = none →
      handleLanding s r ResponseWriter.new
        = httpError ResponseWriter.new (.line "tunnel not found") 400 ∧
      (handleLanding s r ResponseWriter.new).status = some 400 ∧
      (handleLanding s r ResponseWriter.new).cookies = [] ∧
      (handleLanding s r ResponseWriter.new).location = none) := by
  constructor
  · intro t a ht ha hpath
    have hcut : (CutPrefix r.URL.Path ("/tunnels/" ++ r.pathValue)).1 = rest := by
      rw [hpath, CutPrefix_append]
    by_cases hm : r.Method = "GET" <;>
      simp [handleLanding, ht, ha, hcut, Redirect, SetCookie, ResponseWriter.WriteHeader,
        ResponseWriter.Write, ResponseWriter.new, hm]
  · intro hn
    simp [handleLanding, hn, httpError, ResponseWriter.WriteHeader, ResponseWriter.Write,
      ResponseWriter.new]

theorem handleLanding_redirect_witness :
    ((handleLanding svcWildcard { reqGet "/tunnels/abc/a/b" "q=1" with pathValue := "abc" }
        ResponseWriter.new).status = some 302 ∧
      (handleLanding svcWildcard { reqGet "/tunnels/abc/a/b" "q=1" with pathValue := "abc" }
        ResponseWriter.new).location = some { Path := "/a/b", RawQuery := "q=1" }) ∧
    ((handleLanding svcWildcard
        { reqGet "/tunnels/abc/x/tunnels/abc/y" "" with pathValue := "abc", Method := "POST" }
        ResponseWriter.new).status = some 302 ∧
      (handleLanding svcWildcard
        { reqGet "/tunnels/abc/x/tunnels/abc/y" "" with pathValue := "abc", Method := "POST" }
        ResponseWriter.new).location = some { Path := "/x/tunnels/abc/y", RawQuery := "" }) :=
  ⟨(handleLanding_redirect svcWildcard
      { reqGet "/tunnels/abc/a/b" "q=1" with pathValue := "abc" } "/a/b").1
      { localAddr := "127.0.0.1:9443", conn := some 1, scheme := "https" } "127.0.0.1:8443"
      (by decide) (by decide) (by decide),
   (handleLanding_redirect svcWildcard
      { reqGet "/tunnels/abc/x/tunnels/abc/y" "" with pathValue := "abc", Method := "POST" }
      "/x/tunnels/abc/y").1
      { localAddr := "127.0.0.1:9443", conn := some 1, scheme := "https" } "127.0.0.1:8443"
      (by decide) (by decide) (by decide)⟩

/-! ## Lifetime of a registry entry -/

theorem setTunnel_isSome (s : Service) (id k : String) (t : tunnel)
    (h : (s.tunnels k).isSome = true) : ((s.setTunnel id t).tunnels k).isSome = true := by
  by_cases hk : k = id <;> simp [Service.setTunnel, hk, h]

theorem handleCreate_keeps (s : Service) (uuid : List Nat) (r : Request) (w : ResponseWriter)
    (k : String) (h : (s.tunnels k).isSome = true) :
    ((handleCreate s uuid r w).1.tunnels k).isSome = true := by
  unfold handleCreate
  split
  · exact h
  · split
    · exact h
    · exact setTunnel_isSome _ _ _ _ h

theorem forwardHandler_keeps (s : Service) (conn : Nat) (payload : Option forwardReqPayload)
    (env : ForwardEnv) (k : String) (h : (s.tunnels k).isSome = true) :
    ((forwardHandler s conn payload env).1.tunnels k).isSome = true := by
  unfold forwardHandler
  split
  · exact h
  · split
    · exact h
    · dsimp only
      split
      · exact setTunnel_isSome _ _ _ _ h
      · split
        · exact setTunnel_isSome _ _ _ _ (setTunnel_isSome _ _ _ _ h)
        · exact setTunnel_isSome _ _ _ _ h
        · exact setTunnel_isSome _ _ _ _ (setTunnel_isSome _ _ _ _ h)

theorem step_keeps (s : Service) (st : Step) (id : String) (hc : ¬ st.cancels id)
    (h : (s.tunnels id).isSome = true) : ((step s st).tunnels id).isSome = true := by
  cases st with
  | create uuid r => exact handleCreate_keeps _ _ _ _ _ h
  | landing r => exact h
  | proxy env r => exact h
  | forward conn payload env => exact forwardHandler_keeps _ _ _ _ _ h
  | cancel payload =>
    cases payload with
    | none => exact h
    | some p =>
      have hne : id ≠ p.BindAddr := fun e => hc e.symm
      simpa [step, exec, cancelForwardHandler, Service.deleteTunnel, hne] using h

theorem run_keeps (steps : List Step) (s : Service) (id : String)
    (hc : ∀ st ∈ steps, ¬ st.cancels id) (h : (s.tunnels id).isSome = true) :
    ((run s steps).tunnels id).isSome = true := by
  induction steps generalizing s with
  | nil => exact h
  | cons st rest ih =>
    have h1 := step_keeps s st id (hc st (List.mem_cons_self _ _)) h
    exact ih (step s st) (fun st2 hst2 => hc st2 (List.mem_cons_of_mem _ hst2)) h1

/-- C8: when PUT /tunnels decodes its body it returns the identifier newID drew
(inside TunnelCommand and URLs) and registers it, and the identifier stays
registered after every sequence of create, landing, proxy, forward and cancel
steps that holds no cancel-tcpip-forward with that BindAddr; no step other than
such a cancel removes a registered identifier. -/
theorem registry_entry_lifetime (s : Service) (uuid : List Nat) (r : Request)
    (data : tunnelCreateReq) (hm : r.Method = "PUT") (hb : r.body = some data) :
    Chunk.json
        { TunnelCommand :=
            generateTunnelCommand (newID uuid) data.LocalAddr s.cfg.Hostname s.cfg.SSHAddr
          URLs := generateAccessURLs (newID uuid) s.httpLnAddr s.httpsLnAddr }
      ∈ (handleCreate s uuid r ResponseWriter.new).2.body ∧
    (∀ steps : List Step, (∀ st ∈ steps, ¬ st.cancels (newID uuid)) →
      ((run (step s (.create uuid r)) steps).tunnels (newID uuid)).isSome = true) ∧
    (∀ (s1 : Service) (st : Step) (id : String), ¬ st.cancels id →
      (s1.tunnels id).isSome = true → ((step s1 st).tunnels id).isSome = true) := by
  refine ⟨?_, ?_, ?_⟩
  · simp [handleCreate, hm, hb, ResponseWriter.Write, Service.setTunnel]
  · intro steps hc
    apply run_keeps steps _ _ hc
    simp [step, exec, handleCreate, hm, hb, Service.setTunnel]
  · intro s1 st id hc h
    exact step_keeps s1 st id hc h

theorem registry_entry_lifetime_witness :
    ((run (step svcEmpty (.create uuidSample (reqPut "127.0.0.1:9443")))
        [.landing (reqGet "/tunnels/x/" ""),
         .forward 7 (some { BindAddr := newID uuidSample, BindPort := 8080 })
           { openChannelFails := false, probe := .response },
         .cancel (some { BindAddr := "other", BindPort := 8080 }),
         .proxy proxyEnvOk (reqGet "/" "")]).tunnels (newID uuidSample)).isSome = true :=
  (registry_entry_lifetime svcEmpty uuidSample (reqPut "127.0.0.1:9443")
    { LocalAddr := "127.0.0.1:9443" } rfl rfl).2.1 _ (by
      intro st hst
      simp only [List.mem_cons, List.mem_singleton, List.not_mem_nil, or_false] at hst
      rcases hst with h | h | h | h <;> subst h <;> simp [Step.cancels]
      decide)

/-! ## Address validation and the tunnel command -/

theorem lastIndexByte_none (l : List Char) (c : Char) (h : c ∉ l) : lastIndexByte l c = none := by
  have h1 : c ∉ l.reverse := by simpa using h
  have h2 : l.reverse.indexOf c = l.length := by
    rw [List.indexOf_eq_length.mpr h1, List.length_reverse]
  simp [lastIndexByte, h2]

theorem SplitHostPort_no_colon (s : String) (h : ':' ∉ s.data) :
    SplitHostPort s = ("", "", some (.addrError s "missing port in address")) := by
  simp [SplitHostPort, lastIndexByte_none _ _ h]

theorem lastIndexByte_some (s : List Char) (c : Char) (i : Nat)
    (h : lastIndexByte s c = some i) :
    i < s.length ∧ s.drop i = c :: s.drop (i + 1) := by
  unfold lastIndexByte at h
  split_ifs at h with hlt
  simp only [Option.some.injEq] at h
  have hlt2 : s.reverse.indexOf c < s.reverse.length := by simpa using hlt
  have hget : s.reverse[s.reverse.indexOf c] = c := List.getElem_indexOf hlt2
  have hi : i < s.length := by omega
  have hsi : s[i] = c := by
    rw [List.getElem_reverse] at hget
    have : s.length - 1 - List.indexOf c s.reverse = i := h
    simpa [this] using hget
  refine ⟨hi, ?_⟩
  rw [List.drop_eq_getElem_cons hi, hsi]

theorem indexByte_some (s : List Char) (c : Char) (e : Nat) (h : indexByte s c = some e) :
    e < s.length ∧ s.drop e = c :: s.drop (e + 1) := by
  unfold indexByte at h
  split_ifs at h with hlt
  simp only [Option.some.injEq] at h
  subst h
  have hget : s[s.indexOf c] = c := List.getElem_indexOf hlt
  refine ⟨hlt, ?_⟩
  rw [List.drop_eq_getElem_cons hlt, hget]

theorem splitHostPortTail_ok (hostport : String) (hl : List Char) (i j k : Nat)
    (host port : String) (h : splitHostPortTail hostport hl i j k = (host, port, none)) :
    host.data = hl ∧ port.data = hostport.data.drop (i + 1) := by
  unfold splitHostPortTail at h
  split_ifs at h
  · simp at h
  · simp at h
  · simp only [Prod.mk.injEq, and_true] at h
    obtain ⟨rfl, rfl⟩ := h
    exact ⟨rfl, rfl⟩

/-- When SplitHostPort succeeds the address reads host, colon, port, or
bracket, host, bracket, colon, port. -/
theorem SplitHostPort_shape (addr host port : String)
    (h : SplitHostPort addr = (host, port, none)) :
    addr.data = host.data ++ ':' :: port.data ∨
      addr.data = '[' :: host.data ++ ']' :: ':' :: port.data := by
  unfold SplitHostPort at h
  rcases hi : lastIndexByte addr.data ':' with _ | i
  · rw [hi] at h; simp at h
  · rw [hi] at h
    simp only at h
    obtain ⟨hilt, hidrop⟩ := lastIndexByte_some _ _ _ hi
    by_cases hb : addr.data.head? = some '['
    · rw [if_pos hb] at h
      rcases he : indexByte addr.data ']' with _ | e
      · rw [he] at h; simp at h
      · rw [he] at h
        simp only at h
        obtain ⟨helt, hedrop⟩ := indexByte_some _ _ _ he
        by_cases h1 : e + 1 = addr.data.length
        · rw [if_pos h1] at h; simp at h
        · rw [if_neg h1] at h
          by_cases h2 : e + 1 = i
          · rw [if_pos h2] at h
            obtain ⟨hh, hp⟩ := splitHostPortTail_ok _ _ _ _ _ _ _ h
            right
            rcases hdata : addr.data with _ | ⟨c0, t⟩
            · rw [hdata] at hilt; simp at hilt
            · rw [hdata] at hb hh hp hedrop hidrop helt
              simp only [List.head?_cons, Option.some.injEq] at hb
              subst hb
              cases e with
              | zero => simp at hedrop
              | succ e1 =>
                subst h2
                simp only [List.take_succ_cons, List.drop_succ_cons,
                  List.drop_zero] at hh hedrop hidrop hp
                have h4 := List.take_append_drop e1 t
                rw [hedrop, hidrop, ← hh, ← hp] at h4
                rw [← h4]
                simp
          · rw [if_neg h2] at h
            split_ifs at h <;> simp at h
    · rw [if_neg hb] at h
      by_cases hcolon : ':' ∈ addr.data.take i
      · rw [if_pos hcolon] at h; simp at h
      · rw [if_neg hcolon] at h
        obtain ⟨hh, hp⟩ := splitHostPortTail_ok _ _ _ _ _ _ _ h
        left
        have h4 := List.take_append_drop i addr.data
        rw [hidrop, ← hh, ← hp] at h4
        exact h4.symm

theorem SplitHostPort_shape_str (addr host port : String)
    (h : SplitHostPort addr = (host, port, none)) :
    addr = host ++ ":" ++ port ∨ addr = "[" ++ host ++ "]:" ++ port := by
  rcases SplitHostPort_shape addr host port h with hs | hs
  · left
    apply String.ext
    simp [String.data_append, hs]
  · right
    apply String.ext
    simp [String.data_append, hs]

theorem atoiLoop_eq (s0 : String) (cs : List Char) (n : Nat) :
    atoiLoop s0 cs (n : Int) =
      if cs.all Char.isDigit then (((decimalValueFrom n cs : Nat) : Int), none)
      else (0, some (.numSyntax "Atoi" s0)) := by
  induction cs generalizing n with
  | nil => simp [atoiLoop, decimalValueFrom]
  | cons c cs ih =>
    by_cases hc : c.isDigit = true
    · have := ih (n * 10 + (c.toNat - 48))
      simp only [atoiLoop, hc, if_true, List.all_cons, Bool.true_and]
      push_cast at this
      rw [this]
      simp [decimalValueFrom]
    · simp [atoiLoop, hc]

theorem decimalValueFrom_ge (cs : List Char) (n : Nat) : n ≤ decimalValueFrom n cs := by
  induction cs generalizing n with
  | nil => simp [decimalValueFrom]
  | cons c cs ih =>
    have := ih (n * 10 + (c.toNat - 48))
    simp only [decimalValueFrom, List.foldl_cons] at this ⊢
    omega

theorem parseUintLoop_small (s0 : String) (cs : List Char) (n : Nat)
    (hd : cs.all Char.isDigit = true) (hv : decimalValueFrom n cs < 2 ^ 64) :
    parseUintLoop s0 cs n = (decimalValueFrom n cs, none) := by
  induction cs generalizing n with
  | nil => simp [parseUintLoop, decimalValueFrom]
  | cons c cs ih =>
    simp only [List.all_cons, Bool.and_eq_true] at hd
    have hge := decimalValueFrom_ge cs (n * 10 + (c.toNat - 48))
    have hv2 : decimalValueFrom (n * 10 + (c.toNat - 48)) cs < 2 ^ 64 := by
      simpa [decimalValueFrom] using hv
    have hlt : n * 10 + (c.toNat - 48) < 2 ^ 64 := lt_of_le_of_lt hge hv2
    have hmod : (n * 10 + (c.toNat - 48)) % 2 ^ 64 = n * 10 + (c.toNat - 48) :=
      Nat.mod_eq_of_lt hlt
    have hn : ¬ (n ≥ (2 ^ 64 - 1) / 10 + 1) := by
      norm_num at hlt ⊢
      omega
    simp only [parseUintLoop, hd.1, if_true, hn, if_false, hmod]
    have h3 : ¬ (n * 10 + (c.toNat - 48) < n * 10 ∨ n * 10 + (c.toNat - 48) > 2 ^ 64 - 1) := by
      norm_num at hlt ⊢
      omega
    rw [if_neg h3, ih _ hd.2 hv2]
    simp [decimalValueFrom]

theorem isDigit_toNat_le (c : Char) (h : c.isDigit = true) : c.toNat ≤ 57 := by
  simp only [Char.isDigit, Bool.and_eq_true, decide_eq_true_eq] at h
  have := h.2
  exact this

theorem parseUintLoop_cases (s0 : String) (cs : List Char) (n : Nat) :
    (cs.all Char.isDigit = true ∧ parseUintLoop s0 cs n = (decimalValueFrom n cs, none)) ∨
    (∃ fn num, (parseUintLoop s0 cs n).2 = some (.numSyntax fn num)) ∨
    (∃ fn num, parseUintLoop s0 cs n = (2 ^ 64 - 1, some (.numRange fn num))) := by
  induction cs generalizing n with
  | nil => left; simp [parseUintLoop, decimalValueFrom]
  | cons c cs ih =>
    by_cases hc : c.isDigit = true
    · by_cases hn : n ≥ (2 ^ 64 - 1) / 10 + 1
      · right; right
        exact ⟨"ParseUint", s0, by simp only [parseUintLoop, hc, if_true, hn]⟩
      · by_cases h3 : (n * 10 + (c.toNat - 48)) % 2 ^ 64 < n * 10 ∨
            (n * 10 + (c.toNat - 48)) % 2 ^ 64 > 2 ^ 64 - 1
        · right; right
          exact ⟨"ParseUint", s0, by simp only [parseUintLoop, hc, if_true, hn, if_false, h3]⟩
        · have hd := isDigit_toNat_le c hc
          have hstep : parseUintLoop s0 (c :: cs) n
              = parseUintLoop s0 cs ((n * 10 + (c.toNat - 48)) % 2 ^ 64) := by
            simp only [parseUintLoop, hc, if_true, hn, if_false, h3]
          have hmod : (n * 10 + (c.toNat - 48)) % 2 ^ 64 = n * 10 + (c.toNat - 48) := by
            norm_num at hn h3 ⊢
            omega
          rw [hstep, hmod]
          rcases ih (n * 10 + (c.toNat - 48)) with h | h | h
          · left
            refine ⟨by simp [hc, h.1], ?_⟩
            rw [h.2]; simp [decimalValueFrom]
          · right; left; exact h
          · right; right; exact h
    · right; left
      exact ⟨"ParseUint", s0, by simp [parseUintLoop, hc]⟩

theorem str_eq_empty_iff (s : String) : s = "" ↔ s.data = [] := by
  constructor
  · intro h; rw [h]
  · intro h
    cases s with
    | mk d => simp only at h; subst h; rfl

theorem atoiLoop_zero (s0 : String) (cs : List Char) :
    atoiLoop s0 cs 0 =
      if cs.all Char.isDigit then (((decimalValueFrom 0 cs : Nat) : Int), none)
      else (0, some (.numSyntax "Atoi" s0)) := by
  have := atoiLoop_eq s0 cs 0
  simpa using this

theorem Atoi_fast (s : String) (p : Int)
    (hsz : 0 < s.utf8ByteSize ∧ s.utf8ByteSize < 19) :
    Atoi s = (p, none) ↔ readDecimal s = some p := by
  rcases hd : s.data with _ | ⟨c, cs⟩
  · have : s = "" := (str_eq_empty_iff s).mpr hd
    subst this
    simp [String.utf8ByteSize, String.utf8ByteSize.go] at hsz
  · by_cases hp : c = '+'
    · subst hp
      by_cases hcs : cs = []
      · subst hcs
        simp [Atoi, hsz, hd, readDecimal, digitsValue]
      · by_cases hall : cs.all Char.isDigit = true
        · simp [Atoi, hsz, hd, readDecimal, digitsValue, atoiLoop_zero, hall, hcs,
            List.length_pos.mpr hcs]
        · simp [Atoi, hsz, hd, readDecimal, digitsValue, atoiLoop_zero, hall, hcs,
            List.length_pos.mpr hcs]
    · by_cases hm : c = '-'
      · subst hm
        by_cases hcs : cs = []
        · subst hcs
          simp [Atoi, hsz, hd, readDecimal, digitsValue]
        · by_cases hall : cs.all Char.isDigit = true
          · simp [Atoi, hsz, hd, readDecimal, digitsValue, atoiLoop_zero, hall, hcs,
              List.length_pos.mpr hcs]
          · simp [Atoi, hsz, hd, readDecimal, digitsValue, atoiLoop_zero, hall, hcs,
              List.length_pos.mpr hcs]
      · by_cases hall : (c :: cs).all Char.isDigit = true
        · simp [Atoi, hsz, hd, readDecimal, digitsValue, atoiLoop_zero, hall, hp, hm]
        · simp [Atoi, hsz, hd, readDecimal, digitsValue, atoiLoop_zero, hall, hp, hm]

theorem Atoi_slow (s : String) (p : Int)
    (hsz : ¬ (0 < s.utf8ByteSize ∧ s.utf8ByteSize < 19)) :
    Atoi s = (p, none) ↔ ParseInt s = (p, none) := by
  unfold Atoi
  rw [if_neg hsz]
  rcases ParseInt s with ⟨i, e⟩
  cases e with
  | none => simp
  | some err => cases err <;> simp

theorem ParseUint_ok (rest : List Char) (hne : rest ≠ [])
    (hall : rest.all Char.isDigit = true) (hv : decimalValueFrom 0 rest < 2 ^ 64) :
    ParseUint (String.mk rest) = (decimalValueFrom 0 rest, none) := by
  have h1 : String.mk rest ≠ "" := fun h => hne ((str_eq_empty_iff _).mp h)
  simp only [ParseUint, h1, if_false]
  exact parseUintLoop_small _ rest 0 hall hv

theorem ParseUint_result (rest : List Char) (un : Nat) (e : Option GoError)
    (h : ParseUint (String.mk rest) = (un, e)) :
    (e = none ∧ rest ≠ [] ∧ rest.all Char.isDigit = true ∧ un = decimalValueFrom 0 rest) ∨
    (∃ fn num, e = some (.numSyntax fn num)) ∨
    (un = 2 ^ 64 - 1 ∧ ∃ fn num, e = some (.numRange fn num)) := by
  by_cases h1 : String.mk rest = ""
  · right; left
    simp only [ParseUint, h1, if_true] at h
    exact ⟨"ParseUint", "", by simpa using (congrArg Prod.snd h).symm⟩
  · have hne : rest ≠ [] := fun hr => h1 ((str_eq_empty_iff _).mpr hr)
    simp only [ParseUint, h1, if_false] at h
    rcases parseUintLoop_cases (String.mk rest) rest 0 with hc | ⟨fn, num, hc⟩ | ⟨fn, num, hc⟩
    · left
      rw [hc.2] at h
      simp only [Prod.mk.injEq] at h
      exact ⟨h.2.symm, hne, hc.1, h.1.symm⟩
    · right; left
      rw [h] at hc
      exact ⟨fn, num, hc⟩
    · right; right
      rw [hc] at h
      simp only [Prod.mk.injEq] at h
      exact ⟨h.1.symm, fn, num, h.2.symm⟩

theorem digitsValue_some (rest : List Char) (v : Nat) (h : digitsValue rest = some v) :
    rest ≠ [] ∧ rest.all Char.isDigit = true ∧ v = decimalValueFrom 0 rest := by
  unfold digitsValue at h
  split_ifs at h with hc
  simp only [Option.some.injEq] at h
  exact ⟨hc.1, hc.2, h.symm⟩

theorem ParseUint_of_digitsValue (rest : List Char) (neg : Prop) [Decidable neg] (p : Int)
    (h1 : (digitsValue rest).map (fun v : Nat => if neg then -(v : Int) else (v : Int)) = some p)
    (h2 : -(2 ^ 63) ≤ p) (h3 : p < 2 ^ 63) :
    ∃ un, ParseUint (String.mk rest) = (un, none) := by
  rw [Option.map_eq_some'] at h1
  obtain ⟨v, hv, hp⟩ := h1
  obtain ⟨hne, hall, hval⟩ := digitsValue_some rest v hv
  refine ⟨decimalValueFrom 0 rest, ParseUint_ok rest hne hall ?_⟩
  rw [← hval]
  by_cases hn : neg
  · simp only [hn, if_true] at hp
    norm_num at h2 h3 ⊢
    omega
  · simp only [hn, if_false] at hp
    norm_num at h2 h3 ⊢
    omega

/-- The sign handling and range check of ParseInt after the sign is split off. -/
theorem ParseInt_body (s : String) (neg : Prop) [Decidable neg] (rest : List Char) (p : Int) :
    (match ParseUint (String.mk rest) with
      | (_, some (.numSyntax _ _)) => ((0 : Int), some (GoError.numSyntax "ParseInt" s))
      | (un, _) =>
        if ¬ neg ∧ un ≥ 2 ^ 63 then (2 ^ 63 - 1, some (.numRange "ParseInt" s))
        else if neg ∧ un > 2 ^ 63 then (-(2 ^ 63), some (.numRange "ParseInt" s))
        else if neg then (-(un : Int), none) else ((un : Int), none)) = (p, none) ↔
    ((digitsValue rest).map (fun v : Nat => if neg then -(v : Int) else (v : Int)) = some p ∧
      -(2 ^ 63) ≤ p ∧ p < 2 ^ 63) := by
  rcases hpu : ParseUint (String.mk rest) with ⟨un, e⟩
  rcases ParseUint_result rest un e hpu with ⟨he, hne, hall, hun⟩ | ⟨fn, num, he⟩ | ⟨hun, fn, num, he⟩
  · subst he
    have hdv : digitsValue rest = some un := by simp [digitsValue, hne, hall, hun]
    simp only [hdv, Option.map_some']
    by_cases hn : neg
    · simp only [hn, not_true_eq_false, false_and, if_false, true_and, if_true]
      split_ifs with h1
      · simp only [Prod.mk.injEq, reduceCtorEq, and_false, false_iff, Option.some.injEq]
        norm_num at h1 ⊢
        omega
      · simp only [Prod.mk.injEq, and_true, Option.some.injEq]
        norm_num at h1 ⊢
        omega
    · simp only [hn, not_false_eq_true, true_and, false_and, if_false]
      split_ifs with h1
      · simp only [Prod.mk.injEq, reduceCtorEq, and_false, false_iff, Option.some.injEq]
        norm_num at h1 ⊢
        omega
      · simp only [Prod.mk.injEq, and_true, Option.some.injEq]
        norm_num at h1 ⊢
        omega
  · subst he
    simp only
    constructor
    · intro h; simp at h
    · rintro ⟨h1, h2, h3⟩
      obtain ⟨un2, hu⟩ := ParseUint_of_digitsValue rest neg p h1 h2 h3
      rw [hpu] at hu
      simp at hu
  · subst he
    subst hun
    constructor
    · intro h
      exfalso
      revert h
      by_cases hn : neg <;> simp [hn]
    · rintro ⟨h1, h2, h3⟩
      obtain ⟨un2, hu⟩ := ParseUint_of_digitsValue rest neg p h1 h2 h3
      rw [hpu] at hu
      simp at hu

theorem ParseInt_iff (s : String) (p : Int) :
    ParseInt s = (p, none) ↔ (readDecimal s = some p ∧ -(2 ^ 63) ≤ p ∧ p < 2 ^ 63) := by
  rcases hd : s.data with _ | ⟨c, cs⟩
  · have : s = "" := (str_eq_empty_iff s).mpr hd
    subst this
    simp [ParseInt, readDecimal]
  · have hne : s ≠ "" := fun h => by
      rw [(str_eq_empty_iff s).mp h] at hd
      exact List.noConfusion hd
    have key := ParseInt_body s (s.data.head? = some '-')
      (if s.data.head? = some '+' ∨ s.data.head? = some '-' then s.data.drop 1 else s.data) p
    unfold ParseInt
    rw [if_neg hne]
    refine key.trans ?_
    by_cases hp : c = '+'
    · subst hp
      constructor <;> rintro ⟨h1, h2, h3⟩ <;> refine ⟨?_, h2, h3⟩ <;>
        simpa [readDecimal, hd] using h1
    · by_cases hm : c = '-'
      · subst hm
        constructor <;> rintro ⟨h1, h2, h3⟩ <;> refine ⟨?_, h2, h3⟩ <;>
          simpa [readDecimal, hd] using h1
      · constructor <;> rintro ⟨h1, h2, h3⟩ <;> refine ⟨?_, h2, h3⟩ <;>
          simpa [readDecimal, hd, hp, hm] using h1

theorem Atoi_port_iff (s : String) (p : Int) :
    (Atoi s = (p, none) ∧ 1 ≤ p ∧ p ≤ 65535) ↔ (readDecimal s = some p ∧ 1 ≤ p ∧ p ≤ 65535) := by
  by_cases hsz : 0 < s.utf8ByteSize ∧ s.utf8ByteSize < 19
  · rw [Atoi_fast s p hsz]
  · rw [Atoi_slow s p hsz, ParseInt_iff]
    constructor
    · rintro ⟨⟨h1, _, _⟩, h2, h3⟩
      exact ⟨h1, h2, h3⟩
    · rintro ⟨h1, h2, h3⟩
      refine ⟨⟨h1, ?_, ?_⟩, h2, h3⟩ <;> norm_num <;> omega

theorem parseAddress_ok_iff (addr : String) (hc : ':' ∈ addr.data) (host : String) (p : Int) :
    parseAddress addr = (host, p, none) ↔
      ∃ port, SplitHostPort addr = (host, port, none) ∧ Atoi port = (p, none) ∧
        1 ≤ p ∧ p ≤ 65535 := by
  unfold parseAddress
  rw [if_pos hc]
  rcases hs : SplitHostPort addr with ⟨h, pt, e⟩
  cases e with
  | some err => simp
  | none =>
    simp only []
    rcases ha : Atoi pt with ⟨n, e2⟩
    cases e2 with
    | some err =>
      simp only [Prod.mk.injEq, reduceCtorEq, and_false, false_iff, not_exists, not_and]
      rintro port ⟨-, rfl, -⟩ h2
      rw [ha] at h2
      simp at h2
    | none =>
      simp only [minValidPortNum, maxValidPortNum]
      by_cases hr : n < 1 ∨ n > 65535
      · simp only [hr, if_true, Prod.mk.injEq, reduceCtorEq, and_false, false_iff, not_exists,
          not_and]
        rintro port ⟨-, rfl, -⟩ h2
        rw [ha] at h2
        simp only [Prod.mk.injEq, and_true] at h2
        omega
      · simp only [hr, if_false, Prod.mk.injEq, and_true]
        constructor
        · rintro ⟨rfl, rfl⟩
          exact ⟨pt, ⟨rfl, rfl⟩, ha, by omega, by omega⟩
        · rintro ⟨port, ⟨rfl, rfl⟩, h2, -, -⟩
          rw [ha] at h2
          simp only [Prod.mk.injEq, and_true] at h2
          exact ⟨rfl, h2⟩

theorem IsValid_none_iff (addr : String) :
    tunnelCreateReq.IsValid { LocalAddr := addr } = none ↔
      addr ≠ "" ∧ ∃ host p, parseAddress addr = (host, p, none) := by
  unfold tunnelCreateReq.IsValid
  by_cases h0 : addr = ""
  · simp [h0]
  · simp only [h0, if_false, ne_eq, not_false_eq_true, true_and]
    rcases hp : parseAddress addr with ⟨host, p, e⟩
    cases e with
    | some err => simp
    | none => simp

/-- C6: tunnelCreateReq.IsValid returns no error exactly when LocalAddr is
non-empty and either holds no colon or is split by SplitHostPort into a host and
a port (the address then reads host:port or [host]:port) with the port a
decimal integer (optional sign, then digits) in [1, 65535]; parseAddress then
returns that host and that number, and the whole string with port 0 when there
is no colon. -/
theorem IsValid_iff (addr : String) :
    (tunnelCreateReq.IsValid { LocalAddr := addr } = none ↔
      addr ≠ "" ∧
        (':' ∉ addr.data ∨
          ∃ host port p, SplitHostPort addr = (host, port, none) ∧
            (addr = host ++ ":" ++ port ∨ addr = "[" ++ host ++ "]:" ++ port) ∧
            readDecimal port = some p ∧ 1 ≤ p ∧ p ≤ 65535)) ∧
    (':' ∉ addr.data → parseAddress addr = (addr, 0, none)) ∧
    (∀ host port p, ':' ∈ addr.data → SplitHostPort addr = (host, port, none) →
      readDecimal port = some p → 1 ≤ p → p ≤ 65535 → parseAddress addr = (host, p, none)) := by
  have hno : ':' ∉ addr.data → parseAddress addr = (addr, 0, none) := by
    intro h
    simp [parseAddress, h]
  have hyes : ∀ host port p, ':' ∈ addr.data → SplitHostPort addr = (host, port, none) →
      readDecimal port = some p → 1 ≤ p → p ≤ 65535 → parseAddress addr = (host, p, none) := by
    intro host port p hc hs hr h1 h2
    rw [parseAddress_ok_iff addr hc]
    exact ⟨port, hs, ((Atoi_port_iff port p).mpr ⟨hr, h1, h2⟩).1, h1, h2⟩
  refine ⟨?_, hno, hyes⟩
  rw [IsValid_none_iff]
  constructor
  · rintro ⟨hne, host, p, hp⟩
    refine ⟨hne, ?_⟩
    by_cases hc : ':' ∈ addr.data
    · right
      obtain ⟨port, hs, ha, h1, h2⟩ := (parseAddress_ok_iff addr hc host p).mp hp
      exact ⟨host, port, p, hs, SplitHostPort_shape_str addr host port hs,
        ((Atoi_port_iff port p).mp ⟨ha, h1, h2⟩).1, h1, h2⟩
    · left; exact hc
  · rintro ⟨hne, h⟩
    refine ⟨hne, ?_⟩
    by_cases hc : ':' ∈ addr.data
    · rcases h with h | ⟨host, port, p, hs, -, hr, h1, h2⟩
      · exact absurd hc h
      · exact ⟨host, p, hyes host port p hc hs hr h1 h2⟩
    · exact ⟨addr, 0, hno hc⟩


theorem IsValid_iff_witness :
    parseAddress "127.0.0.1:9443" = ("127.0.0.1", 9443, none) ∧
      parseAddress "example.com" = ("example.com", 0, none) :=
  ⟨(IsValid_iff "127.0.0.1:9443").2.2 "127.0.0.1" "9443" 9443 (by decide) (by decide)
      (by decide) (by decide) (by decide),
   (IsValid_iff "example.com").2.1 (by decide)⟩

theorem Atoi_empty_err (p : Int) : Atoi "" ≠ (p, none) := by
  intro h
  have h1 : (Atoi "").2 ≠ none := by decide
  exact h1 (by rw [h])

/-- C5: for a LocalAddr that passes validation, generateTunnelCommand returns
exactly "ssh -N -T -R<ID>:8080:<laddr> <hostname> -p <sshport>", where <laddr>
is LocalAddr followed by ":443" when LocalAddr has no port (no colon, the case
in which parseAddress returns port 0) and LocalAddr itself otherwise, and
<sshport> is the port SplitHostPort finds in the SSH address. -/
theorem generateTunnelCommand_format (tunnelID laddr hostname sshAddr : String)
    (hv : tunnelCreateReq.IsValid { LocalAddr := laddr } = none) :
    generateTunnelCommand tunnelID laddr hostname sshAddr
      = "ssh -N -T -R" ++ tunnelID ++ ":8080:"
          ++ (if ':' ∈ laddr.data then laddr else laddr ++ ":443")
          ++ " " ++ hostname ++ " -p " ++ (SplitHostPort sshAddr).2.1 ∧
    (':' ∈ laddr.data ↔ (parseAddress laddr).2.1 ≠ 0) := by
  obtain ⟨hne, host, p, hp⟩ := (IsValid_none_iff laddr).mp hv
  have h8080 : toString bindPort = "8080" := by decide
  have hlit : ∀ a b : String, a ++ ":" ++ "8080" ++ ":" ++ b = a ++ ":8080:" ++ b := by
    intro a b
    have : (":" : String) ++ "8080" ++ ":" = ":8080:" := by decide
    rw [← this]
    simp only [String.append_assoc]
  by_cases hc : ':' ∈ laddr.data
  · obtain ⟨port, hs, ha, h1, h2⟩ := (parseAddress_ok_iff laddr hc host p).mp hp
    have hport : port ≠ "" := by
      intro h
      rw [h] at ha
      exact Atoi_empty_err p ha
    constructor
    · simp only [generateTunnelCommand, hs, hport, if_false, hc, if_true, h8080, hlit]
    · simp only [hc, true_iff, hp]
      omega
  · constructor
    · simp only [generateTunnelCommand, SplitHostPort_no_colon laddr hc, if_true, hc, if_false,
        h8080, hlit]
    · simp [hc, parseAddress]

theorem generateTunnelCommand_format_witness :
    generateTunnelCommand "abc" "example.com" "gw.example" ":2222"
        = "ssh -N -T -Rabc:8080:example.com:443 gw.example -p 2222" ∧
      generateTunnelCommand "abc" "127.0.0.1:9443" "gw.example" ":2222"
        = "ssh -N -T -Rabc:8080:127.0.0.1:9443 gw.example -p 2222" :=
  ⟨(generateTunnelCommand_format "abc" "example.com" "gw.example" ":2222" (by decide)).1.trans
      (by decide),
   (generateTunnelCommand_format "abc" "127.0.0.1:9443" "gw.example" ":2222" (by decide)).1.trans
      (by decide)⟩

end Tunneler
